import Mathlib

/-!
Shallow embedding of `custom_components/xiaomi_miio_airconditioningcompanion/climate.py`
(the current platform variant of the repository, which every claim cites).

The entity class `XiaomiAirConditioningCompanion` is embedded as a record of the
mutable instance fields the claims are about, and each coroutine method becomes a
pure function from the state (plus the device response, an input of the
environment) to the new state together with the list of device calls it issues.
The external `python-miio` enumerations are not part of this repository; they are
modelled from the spec's device-client boundary and marked as such.
-/

namespace XiaomiACC

/-- Python `int()` applied to a numeric value: truncation toward zero.
Used for `int(self._target_temperature)` in `_send_configuration`. -/
def pyInt (q : ℚ) : ℤ :=
  if 0 ≤ q.num then Int.ofNat (q.num.toNat / q.den)
  else - Int.ofNat (q.num.natAbs / q.den)

/-- Python `str.startswith`, on the underlying character sequence. -/
def pyStartswith (s p : String) : Bool := p.data.isPrefixOf s.data

/-- Python `str.lower()` for the ASCII enum-member names used here. -/
def pyLower (s : String) : String := String.mk (s.data.map Char.toLower)

/-- Python `str.title()` restricted to the single-word enum-member names used
here: first character upper-cased, the rest lower-cased. -/
def pyTitle (s : String) : String :=
  match s.data with
  | [] => ""
  | c :: cs => String.mk (c.toUpper :: cs.map Char.toLower)

/-- Python truthiness of the `self._state` field (`None` and `False` are falsy). -/
def pyTruthy (b : Option Bool) : Bool := b = some true

/-- The abstract HVAC vocabulary of the host platform (`HVACMode` values that
appear as the `value`s of the local `OperationMode` enum, climate.py 207-213). -/
inductive HVACMode
  | off
  | heat
  | cool
  | auto
  | dry
  | fan_only
deriving DecidableEq, Repr, Fintype

/-- climate.py 207-213: the component's own `OperationMode(enum.Enum)`, whose
member names are the device-side names and whose values are `HVACMode`s. -/
inductive OperationMode
  | Heat
  | Cool
  | Auto
  | Dehumidify
  | Ventilate
  | Off
deriving DecidableEq, Repr, Fintype

/-- The `value` of each `OperationMode` member (climate.py 207-213). -/
def OperationMode.value : OperationMode → HVACMode
  | .Heat => .heat
  | .Cool => .cool
  | .Auto => .auto
  | .Dehumidify => .dry
  | .Ventilate => .fan_only
  | .Off => .off

/-- Python `OperationMode(x)`: the member whose `value` is `x`; total because
each of the six `HVACMode` values is the value of exactly one member. -/
def OperationMode.ofHVAC : HVACMode → OperationMode
  | .heat => .Heat
  | .cool => .Cool
  | .auto => .Auto
  | .dry => .Dehumidify
  | .fan_only => .Ventilate
  | .off => .Off

/-- Modelled from the spec: `miio.airconditioningcompanion.OperationMode`, the
device-side operation enum of the external device client, which is not part of
this repository. Per the boundary description (spec section 4.2: operation mode
off/heat/cool/auto/dehumidify/ventilate mapped totally and bijectively to the
device operation enum) it carries one member per local `OperationMode` member,
under the same member names. -/
inductive MiioOperationMode
  | Heat
  | Cool
  | Auto
  | Dehumidify
  | Ventilate
  | Off
deriving DecidableEq, Repr, Fintype

/-- The name-indexed lookup `MiioOperationMode[o.name]` performed in
`_send_configuration` (climate.py 533-535): the member names of the two enums
coincide, so the lookup is the rename sending each local member to the
device member of the same name. -/
def MiioOperationMode.ofLocal : OperationMode → MiioOperationMode
  | .Heat => .Heat
  | .Cool => .Cool
  | .Auto => .Auto
  | .Dehumidify => .Dehumidify
  | .Ventilate => .Ventilate
  | .Off => .Off

/-- The name-indexed lookup `OperationMode[m.name]` performed in `async_update`
(climate.py 367): the device member names all name local members. -/
def OperationMode.ofMiio : MiioOperationMode → OperationMode
  | .Heat => .Heat
  | .Cool => .Cool
  | .Auto => .Auto
  | .Dehumidify => .Dehumidify
  | .Ventilate => .Ventilate
  | .Off => .Off

/-- Modelled from the spec: the device client's fan-speed enum
(`miio.airconditioningcompanion.FanSpeed`), external to this repository;
the spec only fixes that it is a finite enum addressed by member name. -/
inductive FanSpeed
  | Low
  | Medium
  | High
  | Auto
deriving DecidableEq, Repr, Fintype

/-- Member name of a `FanSpeed` (Python `member.name`). -/
def FanSpeed.nm : FanSpeed → String
  | .Low => "Low"
  | .Medium => "Medium"
  | .High => "High"
  | .Auto => "Auto"

/-- Name-indexed lookup `FanSpeed[s]` (used as `FanSpeed[fan_mode.title()]`
in `async_set_fan_mode`, climate.py 491). -/
def FanSpeed.ofStr (s : String) : Option FanSpeed :=
  if s = "Low" then some .Low
  else if s = "Medium" then some .Medium
  else if s = "High" then some .High
  else if s = "Auto" then some .Auto
  else none

/-- Modelled from the spec: the device client's swing enum
(`miio.airconditioningcompanion.SwingMode`), external to this repository. -/
inductive SwingMode
  | On
  | Off
deriving DecidableEq, Repr, Fintype

/-- Member name of a `SwingMode` (Python `member.name`). -/
def SwingMode.nm : SwingMode → String
  | .On => "On"
  | .Off => "Off"

/-- Name-indexed lookup `SwingMode[s]` (used as `SwingMode[swing_mode.title()]`
in `async_set_swing_mode`, climate.py 484). -/
def SwingMode.ofStr (s : String) : Option SwingMode :=
  if s = "On" then some .On
  else if s = "Off" then some .Off
  else none

/-- Modelled from the spec: the device client's power enum
(`miio.airconditioningcompanion.Power`), external to this repository. -/
inductive Power
  | On
  | Off
deriving DecidableEq, Repr, Fintype

/-- `Power(int(b))` as computed in `_send_configuration` (climate.py 531):
`int(True) = 1` selects `Power.On`, `int(False) = 0` selects `Power.Off`. -/
def Power.ofBool (b : Bool) : Power := if b then .On else .Off

/-- Modelled from the spec: the device client's LED enum
(`miio.airconditioningcompanion.Led`), external to this repository. -/
inductive Led
  | On
  | Off
deriving DecidableEq, Repr, Fintype

/-- climate.py 47: `SUCCESS = ["ok"]`, the single accepted success token. -/
def SUCCESS : List String := ["ok"]

/-- One call to the device client (the opaque RPC boundary). -/
inductive DeviceCall
  | on
  | off
  | status
  | sendConfiguration (model : String) (power : Power) (mode : MiioOperationMode)
      (temp : ℤ) (fan : Option FanSpeed) (swing : Option SwingMode) (led : Led)
  | sendCommand (cmd : String)
  | sendIrCode (model : String) (cmd : String)
  | learn (slot : ℕ)
  | learnResult
  | learnStop (slot : ℕ)
deriving DecidableEq, Repr

/-- The environment's answer to one device call passed through `_try_command`:
either a raw result value (a list of strings in the miio client) or a raised
`DeviceException`. -/
inductive DeviceResponse
  | result (r : List String)
  | fault
deriving DecidableEq, Repr

/-- The mutable instance fields of `XiaomiAirConditioningCompanion` that the
claims are about, as initialised in `__init__` (climate.py 238-257).
Fields initialised to `None` are `Option`s. -/
structure ControllerState where
  available : Bool
  state : Option Bool
  hvac_mode : Option HVACMode
  last_on_operation : Option HVACMode
  target_temperature : Option ℚ
  fan_mode : Option FanSpeed
  swing_mode : Option SwingMode
  air_condition_model : Option String
  current_temperature : Option ℚ
  min_temp : ℤ
  max_temp : ℤ
deriving DecidableEq, Repr

/-- `_try_command` (climate.py 314-327): invoke the device call, compare the raw
result against `SUCCESS`; on a raised `DeviceException` set `_available = False`
and return `False`.  The returned pair is (boolean result, new state); the
function is total, so no fault escapes to the caller. -/
def tryCommand (s : ControllerState) (r : DeviceResponse) : Bool × ControllerState :=
  match r with
  | .result res => (res == SUCCESS, s)
  | .fault => (false, { s with available := false })

/-- `async_turn_on` (climate.py 329-336): one `device.on` call through
`_try_command`; on success set `_state = True`. -/
def asyncTurnOn (s : ControllerState) (r : DeviceResponse) :
    ControllerState × List DeviceCall :=
  let p := tryCommand s r
  (if p.1 then { p.2 with state := some true } else p.2, [DeviceCall.on])

/-- `async_turn_off` (climate.py 338-345): one `device.off` call through
`_try_command`; on success set `_state = False`. -/
def asyncTurnOff (s : ControllerState) (r : DeviceResponse) :
    ControllerState × List DeviceCall :=
  let p := tryCommand s r
  (if p.1 then { p.2 with state := some false } else p.2, [DeviceCall.off])

/-- The operation-mode argument built in `_send_configuration`
(climate.py 532-536): `MiioOperationMode[OperationMode(self._hvac_mode).name]`
when `self._state` is truthy, else
`MiioOperationMode[OperationMode(self._last_on_operation).name]`.
`none` when the selected field is `None` (Python would raise `ValueError`). -/
def resolveMode (s : ControllerState) : Option MiioOperationMode :=
  if pyTruthy s.state then
    s.hvac_mode.map fun h => MiioOperationMode.ofLocal (OperationMode.ofHVAC h)
  else
    s.last_on_operation.map fun h => MiioOperationMode.ofLocal (OperationMode.ofHVAC h)

/-- Outcome of `_send_configuration` (climate.py 521-546). `modelUnknown` is the
logged "Model number of the air condition unknown" branch; `typeError` is a
Python exception while building the argument tuple (a `None` field where a
value is required); `sent` carries the one composed `send_configuration` call. -/
inductive ConfigOutcome
  | modelUnknown
  | typeError
  | sent (c : DeviceCall)
deriving DecidableEq, Repr

/-- The pure composition part of `_send_configuration` (climate.py 521-546):
with a known model, build the ordered argument tuple
`(model, Power(int(_state)), mode, int(_target_temperature), _fan_mode,
_swing_mode, Led.Off)`; with `_air_condition_model` unset, refuse. -/
def composeConfig (s : ControllerState) : ConfigOutcome :=
  match s.air_condition_model with
  | none => .modelUnknown
  | some m =>
    match s.state, resolveMode s, s.target_temperature with
    | some b, some md, some t =>
        .sent (.sendConfiguration m (Power.ofBool b) md (pyInt t)
          s.fan_mode s.swing_mode Led.Off)
    | _, _, _ => .typeError

/-- The device calls issued for a composition outcome: exactly the composed
call when one was built, nothing otherwise. -/
def configCalls : ConfigOutcome → List DeviceCall
  | .sent c => [c]
  | _ => []

/-- `_send_configuration` (climate.py 521-546) including the dispatch of the
composed call through `_try_command`. -/
def sendConfigurationOp (s : ControllerState) (r : DeviceResponse) :
    ControllerState × ConfigOutcome × List DeviceCall :=
  match composeConfig s with
  | .sent c => ((tryCommand s r).2, .sent c, [c])
  | o => (s, o, [])

/-- `async_set_temperature` (climate.py 471-478): cache the provided target
temperature and/or hvac mode unconditionally, then `_send_configuration`. -/
def asyncSetTemperature (s : ControllerState) (temp : Option ℚ)
    (hvac : Option HVACMode) (r : DeviceResponse) :
    ControllerState × ConfigOutcome × List DeviceCall :=
  let s1 := match temp with
    | some t => { s with target_temperature := some t }
    | none => s
  let s2 := match hvac with
    | some h => { s1 with hvac_mode := some h }
    | none => s1
  sendConfigurationOp s2 r

/-- Routing outcome of one iteration of `async_send_command`
(climate.py 576-609). -/
inductive SendOutcome
  | raw
  | ir
  | modelUnknown
  | invalid
deriving DecidableEq, Repr

/-- One iteration of the `async_send_command` loop (climate.py 585-606):
a code starting with "01" goes to `device.send_command`; a code starting with
"FE" goes to `device.send_ir_code` with the learned model, or is refused with
the model-unknown error if no model is known; anything else is logged as an
invalid IR command, with no device call. -/
def sendCommandOnce (s : ControllerState) (cmd : String) :
    SendOutcome × List DeviceCall :=
  if pyStartswith cmd "01" then (.raw, [.sendCommand cmd])
  else if pyStartswith cmd "FE" then
    match s.air_condition_model with
    | some m => (.ir, [.sendIrCode m cmd])
    | none => (.modelUnknown, [])
  else (.invalid, [])

/-- `async_send_command` (climate.py 576-609): the routing of one code,
repeated `repeats` times (the state is not mutated by the loop body, so every
iteration issues the same calls). -/
def asyncSendCommand (s : ControllerState) (cmd : String) (repeats : ℕ) :
    SendOutcome × List DeviceCall :=
  ((sendCommandOnce s cmd).1,
    (List.replicate repeats (sendCommandOnce s cmd).2).flatten)

/-- The snapshot returned by a successful `device.status()` poll, with the
fields read by `async_update` (climate.py 347-378).  `air_condition_model`
holds the hex string `state.air_condition_model.hex()`; `power` holds the
device's power string compared against "off" on line 368. -/
structure DeviceSnapshot where
  air_condition_model : String
  load_power : ℚ
  target_temperature : ℚ
  swing_mode : SwingMode
  fan_speed : FanSpeed
  mode : MiioOperationMode
  led : String
  power : String
deriving DecidableEq, Repr

/-- `async_update` (climate.py 347-382): on a successful `status()` set
`_available = True`, overwrite `_last_on_operation` from the snapshot mode,
set `_hvac_mode`/`_state` from the snapshot power, overwrite target
temperature, fan and swing from the snapshot, and set `_air_condition_model`
from the snapshot only when it is still `None`; on `DeviceException` set
`_available = False` and change nothing else. -/
def asyncUpdate (s : ControllerState) (r : Option DeviceSnapshot) : ControllerState :=
  match r with
  | none => { s with available := false }
  | some st =>
    let lastOn := (OperationMode.ofMiio st.mode).value
    let s1 := { s with available := true, last_on_operation := some lastOn }
    let s2 :=
      if st.power == "off" then { s1 with hvac_mode := some HVACMode.off, state := some false }
      else { s1 with hvac_mode := some lastOn, state := some true }
    let s3 := { s2 with target_temperature := some st.target_temperature,
                        fan_mode := some st.fan_speed,
                        swing_mode := some st.swing_mode }
    if s3.air_condition_model = none
    then { s3 with air_condition_model := some st.air_condition_model }
    else s3

/-- What `_async_update_temp` (climate.py 275-288) sees of a temperature-sensor
state: a missing/unknown/unavailable reading, an unparsable one (Python
`ValueError`, logged and ignored), or a parsed and unit-converted value. -/
inductive SensorReading
  | missing
  | bad
  | val (v : ℚ)
deriving DecidableEq, Repr

/-- `_async_update_temp` (climate.py 275-288): store the parsed value into
`_current_temperature`; ignore missing or unparsable readings.  Issues no
device call. -/
def updateTempOp (s : ControllerState) (rd : SensorReading) :
    ControllerState × List DeviceCall :=
  match rd with
  | .val v => ({ s with current_temperature := some v }, [])
  | _ => (s, [])

/-- `_async_update_power_state` (climate.py 290-298): on a power-sensor state
equal to `STATE_ON` ("on") invoke `async_turn_on`, on any other non-`None`
state invoke `async_turn_off`; `None` is ignored. -/
def updatePowerStateOp (s : ControllerState) (sensor : Option String)
    (r : DeviceResponse) : ControllerState × List DeviceCall :=
  match sensor with
  | none => (s, [])
  | some st => if st = "on" then asyncTurnOn s r else asyncTurnOff s r

/-- The capture test of `async_learn_command` (climate.py 559):
`message.startswith("FE")`. -/
def captureMark (m : String) : Bool := pyStartswith m "FE"

/-- The polling loop of `async_learn_command` (climate.py 554-574), with time
discretised at the loop's own cadence: each iteration issues one
`learn_result` call (whose first element is `poll i` for iteration `i`) and
then sleeps one time unit, so a timeout of `t` units admits iterations
`i < t`.  A capture-marked message stops the session with one `learn_stop`
call and returns it; when the fuel (remaining time) is exhausted the loop
exits and issues one `learn_stop` call with no captured code. -/
def learnLoop (poll : ℕ → String) (slot : ℕ) :
    ℕ → ℕ → Option String × List DeviceCall
  | _, 0 => (none, [DeviceCall.learnStop slot])
  | i, fuel + 1 =>
    if captureMark (poll i) then
      (some (poll i), [DeviceCall.learnResult, DeviceCall.learnStop slot])
    else
      let r := learnLoop poll slot (i + 1) fuel
      (r.1, DeviceCall.learnResult :: r.2)

/-- `async_learn_command` (climate.py 548-574): arm capture with one
`device.learn(slot)` call, then run the polling loop until capture or
timeout. Returns the captured code (`none` on timeout) and the calls. -/
def asyncLearnCommand (poll : ℕ → String) (slot timeout : ℕ) :
    Option String × List DeviceCall :=
  let r := learnLoop poll slot 0 timeout
  (r.1, DeviceCall.learn slot :: r.2)

/-- Abstract-to-device direction of the operation-mode translation as performed
in `_send_configuration` (climate.py 533): `MiioOperationMode[OperationMode(x).name]`. -/
def abstractToDevice (h : HVACMode) : MiioOperationMode :=
  MiioOperationMode.ofLocal (OperationMode.ofHVAC h)

/-- Device-to-abstract direction of the operation-mode translation as performed
in `async_update` (climate.py 367): `OperationMode[m.name].value`. -/
def deviceToAbstract (m : MiioOperationMode) : HVACMode :=
  (OperationMode.ofMiio m).value

/-- A concrete reachable state: device known (model learned), currently off,
last seen operating in cool mode. -/
def coolOffState : ControllerState :=
  { available := true
    state := some false
    hvac_mode := some HVACMode.off
    last_on_operation := some HVACMode.cool
    target_temperature := some 25
    fan_mode := some FanSpeed.Low
    swing_mode := some SwingMode.Off
    air_condition_model := some "010507390000072200"
    current_temperature := some 21
    min_temp := 16
    max_temp := 30 }

/-- A concrete state with the device on in cool mode. -/
def coolOnState : ControllerState :=
  { coolOffState with state := some true, hvac_mode := some HVACMode.cool }

/-- A concrete state before the first successful poll: no model token yet. -/
def noModelState : ControllerState :=
  { coolOffState with air_condition_model := none }

/-- A concrete snapshot as returned by a successful poll. -/
def sampleSnapshot : DeviceSnapshot :=
  { air_condition_model := "010507390000072200"
    load_power := 280
    target_temperature := 24
    swing_mode := SwingMode.On
    fan_speed := FanSpeed.Medium
    mode := MiioOperationMode.Heat
    led := "off"
    power := "on" }

/-- A learn-poll stub that never returns a capture-marked message. -/
def pollNever : ℕ → String := fun _ => "00112233"

/-- A learn-poll stub that returns a capture-marked message at iteration 1. -/
def pollHit : ℕ → String := fun i => if i = 1 then "FE1234" else "0011"

/-! Helper lemmas shared by the claim theorems. -/

theorem tryCommand_result_state (s : ControllerState) (res : List String) :
    (tryCommand s (DeviceResponse.result res)).2 = s := rfl

theorem sendConfigurationOp_state (s : ControllerState) (r : DeviceResponse) :
    (sendConfigurationOp s r).1 = s ∨
    (sendConfigurationOp s r).1 = { s with available := false } := by
  unfold sendConfigurationOp
  cases hc : composeConfig s with
  | modelUnknown => exact Or.inl rfl
  | typeError => exact Or.inl rfl
  | sent c =>
      cases r with
      | result res => exact Or.inl rfl
      | fault => exact Or.inr rfl

theorem asyncUpdate_some (s : ControllerState) (st : DeviceSnapshot) :
    asyncUpdate s (some st) =
      { s with
        available := true
        last_on_operation := some ((OperationMode.ofMiio st.mode).value)
        hvac_mode := some (if st.power == "off" then HVACMode.off
          else (OperationMode.ofMiio st.mode).value)
        state := some (!(st.power == "off"))
        target_temperature := some st.target_temperature
        fan_mode := some st.fan_speed
        swing_mode := some st.swing_mode
        air_condition_model :=
          if s.air_condition_model = none then some st.air_condition_model
          else s.air_condition_model } := by
  by_cases hp : (st.power == "off") = true <;>
    by_cases hn : s.air_condition_model = none <;>
      simp [asyncUpdate, hp, hn]

theorem learnLoop_no_capture (poll : ℕ → String) (slot : ℕ)
    (h : ∀ j, captureMark (poll j) = false) :
    ∀ fuel i, learnLoop poll slot i fuel =
      (none, List.replicate fuel DeviceCall.learnResult ++ [DeviceCall.learnStop slot]) := by
  intro fuel
  induction fuel with
  | zero => intro i; simp [learnLoop]
  | succ n ih => intro i; simp [learnLoop, h i, ih (i + 1), List.replicate_succ]

theorem learnLoop_first_capture (poll : ℕ → String) (slot i0 : ℕ)
    (hno : ∀ j, j < i0 → captureMark (poll j) = false)
    (hcap : captureMark (poll i0) = true) :
    ∀ fuel i, i ≤ i0 → i0 < i + fuel →
      learnLoop poll slot i fuel =
        (some (poll i0),
         List.replicate (i0 - i) DeviceCall.learnResult ++
           [DeviceCall.learnResult, DeviceCall.learnStop slot]) := by
  intro fuel
  induction fuel with
  | zero => intro i h1 h2; omega
  | succ n ih =>
      intro i h1 h2
      by_cases he : i = i0
      · subst he
        simp [learnLoop, hcap]
      · have hlt : i < i0 := lt_of_le_of_ne h1 he
        have hsub : i0 - i = (i0 - (i + 1)) + 1 := by omega
        simp [learnLoop, hno i hlt, ih (i + 1) (by omega) (by omega), hsub,
          List.replicate_succ]

/-! The claims. -/

/-- Claim C1, counterexample to the stated scenario: in `coolOffState` the
device is off and `last_on_operation` is cool, yet a successful `turnOn()`
(which sets `_state = True`, climate.py 335-336) followed by composing the
configuration yields the operation-mode field derived from `_hvac_mode`
(here `Off`), not `Cool`. -/
theorem c1_resume_counterexample :
    coolOffState.last_on_operation = some HVACMode.cool ∧
    coolOffState.state = some false ∧
    composeConfig (asyncTurnOn coolOffState (DeviceResponse.result SUCCESS)).1 =
      ConfigOutcome.sent (DeviceCall.sendConfiguration "010507390000072200" Power.On
        MiioOperationMode.Off 25 (some FanSpeed.Low) (some SwingMode.Off) Led.Off) ∧
    MiioOperationMode.Off ≠ MiioOperationMode.Cool := by decide

/-- Claim C1 (amended): the operation-mode field composed by
`_send_configuration` is derived from `currentHvacMode` when `_state` is
truthy and from `lastOnOperation` otherwise; hence with the device off and
`lastOnOperation = Cool`, composing the configuration directly yields `Cool`;
but a successful `turnOn()` first sets `_state` to true, after which
composition resolves the mode from `currentHvacMode`, not `lastOnOperation`. -/
theorem c1_resume_on_turn_on (s : ControllerState) (m : String) (t : ℚ)
    (hoff : s.state = some false) (hlast : s.last_on_operation = some HVACMode.cool)
    (hm : s.air_condition_model = some m) (ht : s.target_temperature = some t) :
    composeConfig s = ConfigOutcome.sent (DeviceCall.sendConfiguration m Power.Off
      MiioOperationMode.Cool (pyInt t) s.fan_mode s.swing_mode Led.Off) ∧
    ((asyncTurnOn s (DeviceResponse.result SUCCESS)).1).state = some true ∧
    resolveMode ((asyncTurnOn s (DeviceResponse.result SUCCESS)).1) =
      s.hvac_mode.map (fun h => MiioOperationMode.ofLocal (OperationMode.ofHVAC h)) := by
  refine ⟨?_, ?_, ?_⟩
  · simp [composeConfig, resolveMode, pyTruthy, hoff, hlast, hm, ht, Power.ofBool,
      OperationMode.ofHVAC, MiioOperationMode.ofLocal]
  · simp [asyncTurnOn, tryCommand]
  · simp [asyncTurnOn, tryCommand, resolveMode, pyTruthy]

/-- Claim C1 witness: the amended theorem applied to the concrete state
`coolOffState`. -/
theorem c1_resume_on_turn_on_witness :
    composeConfig coolOffState = ConfigOutcome.sent (DeviceCall.sendConfiguration
      "010507390000072200" Power.Off MiioOperationMode.Cool (pyInt 25)
      coolOffState.fan_mode coolOffState.swing_mode Led.Off) ∧
    ((asyncTurnOn coolOffState (DeviceResponse.result SUCCESS)).1).state = some true :=
  ⟨(c1_resume_on_turn_on coolOffState "010507390000072200" 25 rfl rfl rfl rfl).1,
   (c1_resume_on_turn_on coolOffState "010507390000072200" 25 rfl rfl rfl rfl).2.1⟩

/-- Claim C2: with `_air_condition_model` unset, `_send_configuration` reports
the model-unknown condition and issues no device call; with a model set (and a
state whose power, mode and temperature fields resolve), it issues exactly one
`send_configuration` call carrying the ordered tuple (model, power,
operation mode, truncated target temperature, fan, swing, led = Off). -/
theorem c2_model_guard (s : ControllerState) :
    (s.air_condition_model = none →
      composeConfig s = ConfigOutcome.modelUnknown ∧
      configCalls (composeConfig s) = [] ∧
      ∀ r, sendConfigurationOp s r = (s, ConfigOutcome.modelUnknown, [])) ∧
    (∀ m b md t, s.air_condition_model = some m → s.state = some b →
      resolveMode s = some md → s.target_temperature = some t →
      ∀ r, (sendConfigurationOp s r).2 =
        (ConfigOutcome.sent (DeviceCall.sendConfiguration m (Power.ofBool b) md
          (pyInt t) s.fan_mode s.swing_mode Led.Off),
         [DeviceCall.sendConfiguration m (Power.ofBool b) md (pyInt t)
          s.fan_mode s.swing_mode Led.Off])) := by
  constructor
  · intro h
    refine ⟨?_, ?_, ?_⟩ <;> simp [composeConfig, h, configCalls, sendConfigurationOp]
  · intro m b md t hm hb hr ht r
    simp [sendConfigurationOp, composeConfig, hm, hb, hr, ht]

/-- Claim C2 witness: the guard applied at a model-less state and the send
applied at the concrete composable state `coolOffState`. -/
theorem c2_model_guard_witness :
    composeConfig noModelState = ConfigOutcome.modelUnknown ∧
    (sendConfigurationOp coolOffState (DeviceResponse.result SUCCESS)).2 =
      (ConfigOutcome.sent (DeviceCall.sendConfiguration "010507390000072200"
        (Power.ofBool false) MiioOperationMode.Cool (pyInt 25)
        coolOffState.fan_mode coolOffState.swing_mode Led.Off),
       [DeviceCall.sendConfiguration "010507390000072200" (Power.ofBool false)
        MiioOperationMode.Cool (pyInt 25) coolOffState.fan_mode
        coolOffState.swing_mode Led.Off]) :=
  ⟨((c2_model_guard noModelState).1 rfl).1,
   (c2_model_guard coolOffState).2 "010507390000072200" false MiioOperationMode.Cool 25
     rfl rfl (by decide) rfl (DeviceResponse.result SUCCESS)⟩

/-- Claim C3, counterexample: a response that is received but does not match
the success token makes `_try_command` return failure while leaving
`_available` untouched (here `true`); the claim that availability becomes
false on a mismatch is refuted. -/
theorem c3_dispatch_counterexample :
    (["error"] : List String) ≠ SUCCESS ∧
    tryCommand coolOffState (DeviceResponse.result ["error"]) = (false, coolOffState) ∧
    (tryCommand coolOffState (DeviceResponse.result ["error"])).2.available = true := by
  decide

/-- Claim C3 (amended): `_try_command` returns success exactly when the raw
response equals the single accepted success token; a mismatching response
returns failure with the state (in particular availability) unchanged; a
raised `DeviceFault` sets `available = false` and returns failure; the wrapper
is total, so no fault escapes to the caller. -/
theorem c3_dispatch_wrapper (s : ControllerState) (res : List String) :
    tryCommand s (DeviceResponse.result res) = ((res == SUCCESS), s) ∧
    ((res == SUCCESS) = true ↔ res = SUCCESS) ∧
    tryCommand s DeviceResponse.fault = (false, { s with available := false }) ∧
    (tryCommand s DeviceResponse.fault).2.available = false :=
  ⟨rfl, beq_iff_eq, rfl, rfl⟩

/-- Claim C4: a successful poll sets `available = true`, overwrites the cached
power, mode, fan, swing and target-temperature fields from the snapshot, and
sets the model token from the snapshot only when it is currently unset; once
set, no later poll (successful or faulted) overwrites it; a `DeviceFault`
sets `available = false` and leaves every other field unchanged. -/
theorem c4_poll_cycle (s : ControllerState) (st : DeviceSnapshot) :
    (asyncUpdate s (some st)).available = true ∧
    (asyncUpdate s (some st)).state = some (!(st.power == "off")) ∧
    (asyncUpdate s (some st)).hvac_mode =
      some (if st.power == "off" then HVACMode.off
        else (OperationMode.ofMiio st.mode).value) ∧
    (asyncUpdate s (some st)).target_temperature = some st.target_temperature ∧
    (asyncUpdate s (some st)).fan_mode = some st.fan_speed ∧
    (asyncUpdate s (some st)).swing_mode = some st.swing_mode ∧
    (asyncUpdate s (some st)).air_condition_model =
      (if s.air_condition_model = none then some st.air_condition_model
       else s.air_condition_model) ∧
    asyncUpdate s none = { s with available := false } ∧
    (∀ m, s.air_condition_model = some m →
      ∀ r, (asyncUpdate s r).air_condition_model = some m) := by
  refine ⟨?_, ?_, ?_, ?_, ?_, ?_, ?_, rfl, ?_⟩
  · rw [asyncUpdate_some]
  · rw [asyncUpdate_some]
  · rw [asyncUpdate_some]
  · rw [asyncUpdate_some]
  · rw [asyncUpdate_some]
  · rw [asyncUpdate_some]
  · rw [asyncUpdate_some]
  · intro m hm r
    cases r with
    | none => simpa [asyncUpdate] using hm
    | some st' => rw [asyncUpdate_some]; simp [hm]

/-- Claim C4 witness: the poll-cycle theorem applied at `coolOffState` (whose
model token is already set) and the concrete snapshot `sampleSnapshot`. -/
theorem c4_poll_cycle_witness :
    (asyncUpdate coolOffState (some sampleSnapshot)).air_condition_model =
      some "010507390000072200" ∧
    (asyncUpdate coolOffState (some sampleSnapshot)).available = true :=
  ⟨(c4_poll_cycle coolOffState sampleSnapshot).2.2.2.2.2.2.2.2 "010507390000072200"
     rfl (some sampleSnapshot),
   (c4_poll_cycle coolOffState sampleSnapshot).1⟩

/-- Claim C5, counterexample: `async_set_temperature` performs no range check:
a value strictly below `min_temp` (15 < 16) is cached as the new target
temperature (the previous cached value 25 is overwritten) and a configuration
call is still issued; nothing is rejected. -/
theorem c5_clamp_counterexample :
    coolOffState.min_temp = 16 ∧ ((15 : ℚ) < 16) ∧
    coolOffState.target_temperature = some 25 ∧
    (asyncSetTemperature coolOffState (some 15) none
      (DeviceResponse.result SUCCESS)).1.target_temperature = some 15 ∧
    (asyncSetTemperature coolOffState (some 15) none
      (DeviceResponse.result SUCCESS)).2.2 ≠ [] := by decide

/-- Claim C5 (amended): `async_set_temperature` caches any provided target
temperature unconditionally — no comparison against `min_temp`/`max_temp` is
made, so out-of-range values are accepted exactly like in-range ones; with no
temperature argument the cached value is unchanged; the configured bounds are
not modified. -/
theorem c5_set_temperature (s : ControllerState) (t : ℚ) (r : DeviceResponse) :
    ((asyncSetTemperature s (some t) none r).1).target_temperature = some t ∧
    ((asyncSetTemperature s none none r).1).target_temperature = s.target_temperature ∧
    ((asyncSetTemperature s (some t) none r).1).min_temp = s.min_temp ∧
    ((asyncSetTemperature s (some t) none r).1).max_temp = s.max_temp := by
  refine ⟨?_, ?_, ?_, ?_⟩
  · rcases sendConfigurationOp_state { s with target_temperature := some t } r with h | h <;>
      simp [asyncSetTemperature, h]
  · rcases sendConfigurationOp_state s r with h | h <;> simp [asyncSetTemperature, h]
  · rcases sendConfigurationOp_state { s with target_temperature := some t } r with h | h <;>
      simp [asyncSetTemperature, h]
  · rcases sendConfigurationOp_state { s with target_temperature := some t } r with h | h <;>
      simp [asyncSetTemperature, h]

/-- Claim C6: `async_send_command` routes a code starting with "01" to the raw
`send_command` device call; a code starting with "FE" to `send_ir_code` with
the learned model token when one is known; reports model-unknown with no
device call when the token is missing; and treats any other code as invalid
with no device call. -/
theorem c6_send_routing (s : ControllerState) (cmd : String) :
    (pyStartswith cmd "01" = true →
      asyncSendCommand s cmd 1 = (SendOutcome.raw, [DeviceCall.sendCommand cmd])) ∧
    (pyStartswith cmd "01" = false → pyStartswith cmd "FE" = true →
      ∀ m, s.air_condition_model = some m →
      asyncSendCommand s cmd 1 = (SendOutcome.ir, [DeviceCall.sendIrCode m cmd])) ∧
    (pyStartswith cmd "01" = false → pyStartswith cmd "FE" = true →
      s.air_condition_model = none →
      asyncSendCommand s cmd 1 = (SendOutcome.modelUnknown, [])) ∧
    (pyStartswith cmd "01" = false → pyStartswith cmd "FE" = false →
      asyncSendCommand s cmd 1 = (SendOutcome.invalid, [])) := by
  refine ⟨?_, ?_, ?_, ?_⟩
  · intro h1; simp [asyncSendCommand, sendCommandOnce, h1]
  · intro h1 h2 m hm; simp [asyncSendCommand, sendCommandOnce, h1, h2, hm]
  · intro h1 h2 hm; simp [asyncSendCommand, sendCommandOnce, h1, h2, hm]
  · intro h1 h2; simp [asyncSendCommand, sendCommandOnce, h1, h2]

/-- Claim C6 witness: the routing theorem applied at the four concrete cases. -/
theorem c6_send_routing_witness :
    asyncSendCommand coolOffState "0180FF" 1 =
      (SendOutcome.raw, [DeviceCall.sendCommand "0180FF"]) ∧
    asyncSendCommand coolOffState "FE80" 1 =
      (SendOutcome.ir, [DeviceCall.sendIrCode "010507390000072200" "FE80"]) ∧
    asyncSendCommand noModelState "FE80" 1 = (SendOutcome.modelUnknown, []) ∧
    asyncSendCommand coolOffState "XY80" 1 = (SendOutcome.invalid, []) :=
  ⟨(c6_send_routing coolOffState "0180FF").1 rfl,
   (c6_send_routing coolOffState "FE80").2.1 rfl rfl "010507390000072200" rfl,
   (c6_send_routing noModelState "FE80").2.2.1 rfl rfl rfl,
   (c6_send_routing coolOffState "XY80").2.2.2 rfl rfl⟩

/-- Claim C7, counterexample: a successful `async_turn_off` sets `_state` to
false but leaves `_hvac_mode` untouched (here still cool); the claim that it
also sets the current hvac mode to off is refuted. -/
theorem c7_turn_off_counterexample :
    coolOnState.hvac_mode = some HVACMode.cool ∧
    (asyncTurnOff coolOnState (DeviceResponse.result SUCCESS)).1.state = some false ∧
    (asyncTurnOff coolOnState (DeviceResponse.result SUCCESS)).1.hvac_mode =
      some HVACMode.cool ∧
    some HVACMode.cool ≠ some HVACMode.off := by decide

/-- Claim C7 (amended): `async_turn_off` issues exactly the direct `device.off`
call (never the configuration command); on a successful response the only
state change is `_state := false` — `_hvac_mode`, `_last_on_operation` and
every other field are unchanged; on a mismatching response nothing changes;
on a `DeviceFault` only availability drops. -/
theorem c7_turn_off_frame (s : ControllerState) (res : List String) :
    (∀ r, (asyncTurnOff s r).2 = [DeviceCall.off]) ∧
    (asyncTurnOff s (DeviceResponse.result SUCCESS)).1 = { s with state := some false } ∧
    ((res == SUCCESS) = false →
      (asyncTurnOff s (DeviceResponse.result res)).1 = s) ∧
    (asyncTurnOff s DeviceResponse.fault).1 = { s with available := false } := by
  refine ⟨?_, ?_, ?_, ?_⟩
  · intro r; cases r <;> rfl
  · simp [asyncTurnOff, tryCommand]
  · intro h; simp [asyncTurnOff, tryCommand, h]
  · rfl

/-- Claim C7 witness: the frame theorem applied at `coolOnState` with a
mismatching and a successful response. -/
theorem c7_turn_off_frame_witness :
    (asyncTurnOff coolOnState (DeviceResponse.result ["fail"])).1 = coolOnState ∧
    (asyncTurnOff coolOnState (DeviceResponse.result SUCCESS)).1 =
      { coolOnState with state := some false } :=
  ⟨(c7_turn_off_frame coolOnState ["fail"]).2.2.1 rfl,
   (c7_turn_off_frame coolOnState ["fail"]).2.1⟩

/-- Claim C8, counterexample: a power-sensor notification with state "on"
triggers `async_turn_on`, which issues a `device.on` call and (on success)
mutates `_state`, not the current-temperature field; the claim that sensor
notifications only ever update the current temperature and never trigger a
device call is refuted. -/
theorem c8_sensor_counterexample :
    (updatePowerStateOp coolOffState (some "on") (DeviceResponse.result SUCCESS)).2 =
      [DeviceCall.on] ∧
    ([DeviceCall.on] : List DeviceCall) ≠ [] ∧
    (updatePowerStateOp coolOffState (some "on") (DeviceResponse.result SUCCESS)).1.state =
      some true ∧
    (updatePowerStateOp coolOffState (some "on")
      (DeviceResponse.result SUCCESS)).1.current_temperature =
      coolOffState.current_temperature := by decide

/-- Claim C8 (amended): a temperature-sensor notification updates only the
current-temperature field and issues no device call (missing or unparsable
readings change nothing); a power-sensor notification, however, dispatches to
`async_turn_on` (issuing `device.on`) when the sensor reads "on", and to
`async_turn_off` (issuing `device.off`) for any other non-missing reading. -/
theorem c8_sensor_isolation (s : ControllerState) (v : ℚ) (r : DeviceResponse) :
    updateTempOp s SensorReading.missing = (s, []) ∧
    updateTempOp s SensorReading.bad = (s, []) ∧
    updateTempOp s (SensorReading.val v) =
      ({ s with current_temperature := some v }, []) ∧
    updatePowerStateOp s none r = (s, []) ∧
    updatePowerStateOp s (some "on") r = asyncTurnOn s r ∧
    (∀ str, str ≠ "on" → updatePowerStateOp s (some str) r = asyncTurnOff s r) ∧
    (updatePowerStateOp s (some "on") r).2 = [DeviceCall.on] := by
  refine ⟨rfl, rfl, rfl, rfl, ?_, ?_, ?_⟩
  · simp [updatePowerStateOp]
  · intro str h; simp [updatePowerStateOp, h]
  · simp [updatePowerStateOp, asyncTurnOn]

/-- Claim C8 witness: the theorem applied at `coolOffState` with a concrete
parsed temperature and a power reading different from "on". -/
theorem c8_sensor_isolation_witness :
    updateTempOp coolOffState (SensorReading.val 22) =
      ({ coolOffState with current_temperature := some 22 }, []) ∧
    updatePowerStateOp coolOffState (some "off") (DeviceResponse.result SUCCESS) =
      asyncTurnOff coolOffState (DeviceResponse.result SUCCESS) :=
  ⟨(c8_sensor_isolation coolOffState 22 (DeviceResponse.result SUCCESS)).2.2.1,
   (c8_sensor_isolation coolOffState 22 (DeviceResponse.result SUCCESS)).2.2.2.2.2.1
     "off" (by decide)⟩

/-- Claim C9: if no learn-poll result carries the capture marker "FE", the
session times out after its configured number of poll iterations, returns no
code and calls `learn_stop` exactly once; if the first marked result arrives
at an iteration before the timeout, the session returns that code and calls
`learn_stop` exactly once; unmarked results merely continue the polling. -/
theorem c9_learning_session (poll : ℕ → String) (slot timeout : ℕ) :
    ((∀ j, captureMark (poll j) = false) →
      (asyncLearnCommand poll slot timeout).1 = none ∧
      (asyncLearnCommand poll slot timeout).2.count (DeviceCall.learnStop slot) = 1) ∧
    (∀ i0, i0 < timeout → (∀ j, j < i0 → captureMark (poll j) = false) →
      captureMark (poll i0) = true →
      (asyncLearnCommand poll slot timeout).1 = some (poll i0) ∧
      (asyncLearnCommand poll slot timeout).2.count (DeviceCall.learnStop slot) = 1) := by
  constructor
  · intro h
    have hl := learnLoop_no_capture poll slot h timeout 0
    constructor
    · simp [asyncLearnCommand, hl]
    · simp [asyncLearnCommand, hl, List.count_cons, List.count_append,
        List.count_replicate, List.count_singleton]
  · intro i0 hi hno hcap
    have hl := learnLoop_first_capture poll slot i0 hno hcap timeout 0
      (Nat.zero_le i0) (by omega)
    constructor
    · simp [asyncLearnCommand, hl]
    · simp [asyncLearnCommand, hl, List.count_cons, List.count_append,
        List.count_replicate, List.count_singleton]

/-- Claim C9 witness: a stub that never captures with a 2-unit timeout, and a
stub whose second poll carries the marker with a 3-unit timeout. -/
theorem c9_learning_session_witness :
    (asyncLearnCommand pollNever 30 2).1 = none ∧
    (asyncLearnCommand pollNever 30 2).2.count (DeviceCall.learnStop 30) = 1 ∧
    (asyncLearnCommand pollHit 30 3).1 = some "FE1234" ∧
    (asyncLearnCommand pollHit 30 3).2.count (DeviceCall.learnStop 30) = 1 := by
  have h1 := (c9_learning_session pollNever 30 2).1 (fun j => rfl)
  have h2 := (c9_learning_session pollHit 30 3).2 1 (by omega)
    (fun j hj => by
      have hj0 : j = 0 := by omega
      subst hj0; rfl)
    rfl
  exact ⟨h1.1, h1.2, h2.1.trans rfl, h2.2⟩

/-- Claim C10: both directions of the operation-mode translation round-trip on
every value and are injective; the power mapping is injective; and the
name-indexed fan and swing lookups recover each member from its lower-cased
display name after title-casing, with member names pairwise distinct. -/
theorem c10_translator_roundtrip :
    (∀ h : HVACMode, deviceToAbstract (abstractToDevice h) = h) ∧
    (∀ m : MiioOperationMode, abstractToDevice (deviceToAbstract m) = m) ∧
    Function.Injective abstractToDevice ∧
    Function.Injective deviceToAbstract ∧
    Function.Injective Power.ofBool ∧
    (∀ f : FanSpeed, FanSpeed.ofStr (pyTitle (pyLower (FanSpeed.nm f))) = some f) ∧
    (∀ f g : FanSpeed, FanSpeed.nm f = FanSpeed.nm g → f = g) ∧
    (∀ w : SwingMode, SwingMode.ofStr (pyTitle (pyLower (SwingMode.nm w))) = some w) ∧
    (∀ w v : SwingMode, SwingMode.nm w = SwingMode.nm v → w = v) := by decide

/-- Claim C10 witness: the round-trip theorem applied at concrete members,
discharging the name-equality hypotheses. -/
theorem c10_translator_roundtrip_witness :
    deviceToAbstract (abstractToDevice HVACMode.cool) = HVACMode.cool ∧
    abstractToDevice (deviceToAbstract MiioOperationMode.Heat) = MiioOperationMode.Heat ∧
    FanSpeed.ofStr (pyTitle (pyLower (FanSpeed.nm FanSpeed.Low))) = some FanSpeed.Low ∧
    FanSpeed.Low = FanSpeed.Low :=
  ⟨c10_translator_roundtrip.1 HVACMode.cool,
   c10_translator_roundtrip.2.1 MiioOperationMode.Heat,
   c10_translator_roundtrip.2.2.2.2.2.1 FanSpeed.Low,
   c10_translator_roundtrip.2.2.2.2.2.2.1 FanSpeed.Low FanSpeed.Low rfl⟩

end XiaomiACC
